import Mathlib

/-!
Verification development for the DRM/GBM buffer-management layer of the kwin
compositor (`src/backends/drm/drm_buffer_gbm.cpp` and
`src/plugins/platforms/drm/drm_object_crtc.h`).

The C++ code is shallowly embedded: each operation becomes a pure Lean
function from an explicit state (the object's data members) and an oracle
describing the outcome of external driver/kernel calls, to the resulting
state together with the ordered list of external calls the operation
performed.  Machine integers are modelled as `Nat`; pointers that only carry
presence information become `Bool` or `Option`.
-/

namespace KWin

/-- Embedded `DRM_FORMAT_MOD_INVALID` from `drm_fourcc.h`:
`fourcc_mod_code(NONE, 0x00ffffffffffffff)`. -/
def DRM_FORMAT_MOD_INVALID : Nat := 0x00ffffffffffffff

/-- Embedded `EINVAL` errno value on Linux. -/
def EINVAL : Nat := 22

/-- Embedded `GBM_BO_USE_SCANOUT` flag from `gbm.h` (`1 << 0`). -/
def GBM_BO_USE_SCANOUT : Nat := 1

/-- Embedded `DRM_MODE_FB_MODIFIERS` flag from `drm_mode.h` (`1 << 1`). -/
def DRM_MODE_FB_MODIFIERS : Nat := 2

/-- One plane of a `LinuxDmaBufV1ClientBuffer`: file descriptor, byte
offset, row stride and format modifier (`KWaylandServer` plane data). -/
structure Plane where
  fd : Int
  offset : Nat
  stride : Nat
  modifier : Nat
  deriving DecidableEq, Repr

/-- The data of a `LinuxDmaBufV1ClientBuffer` that the import constructor
reads: format, size, and the plane list. -/
structure ClientBufferDesc where
  format : Nat
  width : Nat
  height : Nat
  planes : List Plane
  deriving DecidableEq, Repr

/-- The data of a native `gbm_bo` handle that the embedded operations query
via the `gbm_bo_get_*` functions.  `planeHandleValid0` models
`gbm_bo_get_handle_for_plane(bo, 0).s32 != -1`. -/
structure GbmBo where
  width : Nat
  height : Nat
  format : Nat
  modifier : Nat
  stride : Nat
  handle : Nat
  planeCount : Nat
  planeHandleValid0 : Bool
  deriving DecidableEq, Repr

/-- Identity and capabilities of a `DrmGpu` as read by the embedded code:
DRM file descriptor, device node path, and whether
`drmModeAddFB2WithModifiers` is supported. -/
structure Gpu where
  fd : Nat
  devNode : String
  addFB2ModifiersSupported : Bool
  deriving DecidableEq, Repr

/-- External calls (driver/kernel calls and log emissions) an embedded
operation can perform, in program order. -/
inductive ExtCall where
  /-- Embedded `clientBuffer->ref()` -/
  | clientRef
  /-- Embedded `clientBuffer->unref()` -/
  | clientUnref
  /-- Embedded `gbm_bo_import`: `multiPlaneModifier = true` for
  `GBM_BO_IMPORT_FD_MODIFIER`, `false` for `GBM_BO_IMPORT_FD`;
  `usage` is the usage-flags argument. -/
  | gbmImport (multiPlaneModifier : Bool) (usage : Nat)
  /-- Embedded `gbm_bo_map` -/
  | gbmMap
  /-- Embedded `gbm_bo_unmap` -/
  | gbmUnmap
  /-- Embedded `gbm_bo_destroy` -/
  | gbmDestroy
  /-- Embedded `m_surface->releaseBuffer(this)` -/
  | surfaceRelease
  /-- Embedded `eglCreateImageKHR` -/
  | eglCreateImage
  /-- Embedded `qCWarning` "Importing buffer for direct scanout failed" -/
  | warnImportFailed
  /-- Embedded `qCWarning` "Error creating EGLImageKHR" -/
  | warnTextureFailed
  /-- Embedded `drmModeAddFB2WithModifiers` with the given flags argument -/
  | addFB2WithModifiers (flags : Nat)
  /-- Embedded `drmModeAddFB2` -/
  | addFB2
  /-- Embedded `drmModeAddFB` with the given depth and bpp arguments -/
  | addFB (depth bpp : Nat)
  /-- Embedded `drmModeRmFB` on the given framebuffer id -/
  | rmFB (bufferId : Nat)
  /-- Embedded `gbm_bo_set_user_data(m_bo, this, nullptr)` -/
  | setUserData
  /-- Embedded `qCCritical` "drmModeAddFB2WithModifiers ... failed", naming device
  node, pixel format and `modifiers[0]` -/
  | criticalAddFBModLog (devNode : String) (format modifier : Nat)
  /-- Embedded `qCCritical` "drmModeAddFB2 and drmModeAddFB both failed", naming
  device node, pixel format and `modifiers[0]` -/
  | criticalAddFBLog (devNode : String) (format modifier : Nat)
  /-- Embedded `qCCritical` "drmModeRmFB ... failed" -/
  | criticalRmFBLog (devNode : String)
  deriving DecidableEq, Repr

/-- The data members of a `GbmBuffer`: `m_surface` (presence), `m_bo`,
`m_clientBuffer` (presence of a held reference), `m_stride`, `m_data`
(mapped CPU address) and `m_mapping` (presence of the opaque mapping
handle). -/
structure GbmBufferState where
  surfaceBacked : Bool
  bo : Option GbmBo
  clientBufferHeld : Bool
  stride : Nat
  mappedData : Option Nat
  hasMapping : Bool
  deriving DecidableEq, Repr

/-- Outcome of the `gbm_bo_import` call: the imported handle's data on
success, or `none` together with the `errno` value on failure. -/
structure ImportOracle where
  result : Option GbmBo
  errnoVal : Nat
  deriving DecidableEq, Repr

/-- The branch condition of `GbmBuffer::GbmBuffer(DrmGpu*,
LinuxDmaBufV1ClientBuffer*)`:
`planes.first().modifier != DRM_FORMAT_MOD_INVALID
 || planes.first().offset > 0 || planes.count() > 1`. -/
def usesModifierImportPath (planes : List Plane) : Bool :=
  match planes.head? with
  | none => false
  | some p0 =>
    p0.modifier != DRM_FORMAT_MOD_INVALID || p0.offset > 0 || planes.length > 1

/-- Embedded `GbmBuffer::GbmBuffer(DrmGpu *gpu, LinuxDmaBufV1ClientBuffer
*clientBuffer)`: refs the client buffer, imports via the modifier path or
the simple path depending on `usesModifierImportPath`, reads the stride
back on success, and warns on failure unless `errno == EINVAL`. -/
def GbmBuffer.importFromClient (cb : ClientBufferDesc) (o : ImportOracle) :
    GbmBufferState × List ExtCall :=
  let importCall := ExtCall.gbmImport (usesModifierImportPath cb.planes) GBM_BO_USE_SCANOUT
  match o.result with
  | some b =>
    ({ surfaceBacked := false, bo := some b, clientBufferHeld := true,
       stride := b.stride, mappedData := none, hasMapping := false },
     [ExtCall.clientRef, importCall])
  | none =>
    ({ surfaceBacked := false, bo := none, clientBufferHeld := true,
       stride := 0, mappedData := none, hasMapping := false },
     [ExtCall.clientRef, importCall] ++
       (if o.errnoVal ≠ EINVAL then [ExtCall.warnImportFailed] else []))

/-- Embedded `GbmBuffer::GbmBuffer(GbmSurface *surface, gbm_bo *bo)`: wraps a
surface-allocated native handle; stride read from the handle. -/
def GbmBuffer.fromSurface (b : GbmBo) : GbmBufferState :=
  { surfaceBacked := true, bo := some b, clientBufferHeld := false,
    stride := b.stride, mappedData := none, hasMapping := false }

/-- Embedded `GbmBuffer::releaseBuffer()`: unref the client buffer if held; then, if
a native handle is present, unmap if mapped, return the handle to the
surface or destroy it, and clear `m_bo`.  (`m_data` and `m_mapping` are not
cleared by the source.) -/
def GbmBuffer.releaseBuffer (s : GbmBufferState) : GbmBufferState × List ExtCall :=
  let s1 := if s.clientBufferHeld then { s with clientBufferHeld := false } else s
  let c1 := if s.clientBufferHeld then [ExtCall.clientUnref] else []
  match s1.bo with
  | none => (s1, c1)
  | some _ =>
    let c2 := if s1.hasMapping then [ExtCall.gbmUnmap] else []
    let s2 := if s1.surfaceBacked then { s1 with surfaceBacked := false } else s1
    let c3 := if s1.surfaceBacked then [ExtCall.surfaceRelease] else [ExtCall.gbmDestroy]
    ({ s2 with bo := none }, c1 ++ c2 ++ c3)

/-- Outcome of the `gbm_bo_map` call: mapped address and the stride it
reports, or `none` on failure. -/
structure MapOracle where
  result : Option (Nat × Nat)
  deriving DecidableEq, Repr

/-- Embedded `GbmBuffer::map(uint32_t flags)`: returns true immediately if `m_data`
is set; fails if `m_bo` is null; otherwise calls `gbm_bo_map`, recording
address, stride and mapping handle on success.  Result is the returned
`bool`, the new state, and the calls performed. -/
def GbmBuffer.map (s : GbmBufferState) (o : MapOracle) :
    Bool × GbmBufferState × List ExtCall :=
  if s.mappedData.isSome then
    (true, s, [])
  else
    match s.bo with
    | none => (false, s, [])
    | some _ =>
      match o.result with
      | some (addr, st) =>
        (true, { s with mappedData := some addr, stride := st, hasMapping := true },
         [ExtCall.gbmMap])
      | none => (false, s, [ExtCall.gbmMap])

/-- Embedded `GbmBuffer::createTexture(EGLDisplay)`: null result with no calls if
`m_bo` is null; otherwise calls `eglCreateImageKHR` (outcome given by
`imageResult`), warning and returning null on failure. -/
def GbmBuffer.createTexture (s : GbmBufferState) (imageResult : Option Nat) :
    Option Nat × List ExtCall :=
  match s.bo with
  | none => (none, [])
  | some _ =>
    match imageResult with
    | none => (none, [ExtCall.eglCreateImage, ExtCall.warnTextureFailed])
    | some img => (some img, [ExtCall.eglCreateImage])

/-- Outcome of the three framebuffer-registration ioctls: `some id` when the
call succeeds and writes `id` into `m_bufferId`, `none` when it returns
non-zero. -/
structure FbOracle where
  addFB2WithModifiersResult : Option Nat
  addFB2Result : Option Nat
  addFBResult : Option Nat
  deriving DecidableEq, Repr

/-- The value of `modifiers[0]` after the plane-filling step of
`DrmGbmBuffer::initialize`: the buffer's overall modifier (`m_modifier`)
when plane 0 exposes a valid per-plane handle (and at least one plane is
reported, else the zero-initialised array entry remains), and
`DRM_FORMAT_MOD_INVALID` on the legacy single-plane path. -/
def planeModifier0 (b : GbmBo) (modifier : Nat) : Nat :=
  if b.planeHandleValid0 then
    (if 0 < b.planeCount then modifier else 0)
  else DRM_FORMAT_MOD_INVALID

/-- Result of `DrmGbmBuffer::initialize`: final `m_bufferId`, `m_size`,
whether `gbm_bo_set_user_data` ran, and the calls performed. -/
structure InitResult where
  bufferId : Nat
  size : Option (Nat × Nat)
  userDataSet : Bool
  calls : List ExtCall
  deriving DecidableEq, Repr

/-- Embedded `DrmGbmBuffer::initialize()`: returns early when `m_bo` is null;
otherwise reads the size, fills the plane arrays, and registers the
framebuffer — `drmModeAddFB2WithModifiers` alone when `modifiers[0]` is
valid and the GPU supports it (critical log on failure, only for
surface-backed buffers), otherwise `drmModeAddFB2` with a fallback to
`drmModeAddFB(depth 24, bpp 32)` (critical log when both fail, only for
surface-backed buffers); finally always tags the bo with user data. -/
def DrmGbmBuffer.initFramebuffer (gpu : Gpu) (format modifier : Nat)
    (surfaceBacked : Bool) (bo : Option GbmBo) (o : FbOracle) : InitResult :=
  match bo with
  | none => { bufferId := 0, size := none, userDataSet := false, calls := [] }
  | some b =>
    let size := some (b.width, b.height)
    let mod0 := planeModifier0 b modifier
    if (mod0 != DRM_FORMAT_MOD_INVALID) && gpu.addFB2ModifiersSupported then
      match o.addFB2WithModifiersResult with
      | some id =>
        { bufferId := id, size := size, userDataSet := true,
          calls := [ExtCall.addFB2WithModifiers DRM_MODE_FB_MODIFIERS, ExtCall.setUserData] }
      | none =>
        { bufferId := 0, size := size, userDataSet := true,
          calls := [ExtCall.addFB2WithModifiers DRM_MODE_FB_MODIFIERS] ++
            (if surfaceBacked then
              [ExtCall.criticalAddFBModLog gpu.devNode format mod0] else []) ++
            [ExtCall.setUserData] }
    else
      match o.addFB2Result with
      | some id =>
        { bufferId := id, size := size, userDataSet := true,
          calls := [ExtCall.addFB2, ExtCall.setUserData] }
      | none =>
        match o.addFBResult with
        | some id =>
          { bufferId := id, size := size, userDataSet := true,
            calls := [ExtCall.addFB2, ExtCall.addFB 24 32, ExtCall.setUserData] }
        | none =>
          { bufferId := 0, size := size, userDataSet := true,
            calls := [ExtCall.addFB2, ExtCall.addFB 24 32] ++
              (if surfaceBacked then
                [ExtCall.criticalAddFBLog gpu.devNode format mod0] else []) ++
              [ExtCall.setUserData] }

/-- Embedded `DrmGbmBuffer::~DrmGbmBuffer()` followed by the base-class destructor
`GbmBuffer::~GbmBuffer()` (which runs `releaseBuffer`): `drmModeRmFB` when
`m_bufferId` is non-zero, with a critical log if it fails, then the release
calls. -/
def DrmGbmBuffer.destruct (bufferId : Nat) (gpu : Gpu) (rmSucceeds : Bool)
    (s : GbmBufferState) : List ExtCall :=
  (if bufferId ≠ 0 then
    [ExtCall.rmFB bufferId] ++
      (if rmSucceeds then [] else [ExtCall.criticalRmFBLog gpu.devNode])
  else []) ++ (GbmBuffer.releaseBuffer s).2

/-- What `dynamic_cast<DrmGbmBuffer*>` can observe about the argument of
`needsModeChange`: either a `DrmGbmBuffer` (carrying whether it has a
native bo) or a buffer of a different concrete kind. -/
inductive DrmBufferView where
  | gbm (hasBo : Bool)
  | otherKind
  deriving DecidableEq, Repr

/-- Embedded `DrmGbmBuffer::needsModeChange(DrmBuffer *b)`: if the cast to
`DrmGbmBuffer` succeeds, compare `hasBo()` of the two; otherwise true. -/
def DrmGbmBuffer.needsModeChange (selfHasBo : Bool) (b : DrmBufferView) : Bool :=
  match b with
  | DrmBufferView.gbm hasBo => selfHasBo != hasBo
  | DrmBufferView.otherKind => true

/-- Embedded `DrmCrtc`'s buffer slots: `m_currentBuffer` and `m_nextBuffer`, each a
`QSharedPointer<DrmBuffer>` modelled by the identity of the buffer it
points to. -/
structure DrmCrtcState where
  currentBuffer : Option Nat
  nextBuffer : Option Nat
  deriving DecidableEq, Repr

/-- Embedded `DrmCrtc::setNext(const QSharedPointer<DrmBuffer> &buffer)`:
`m_nextBuffer = buffer`.  `QSharedPointer` assignment first shares the new
buffer (incrementing its reference count) and then drops the old reference
(decrementing its count, destroying the buffer when the count reaches
zero).  `rc` maps buffer identity to reference count; the result is the new
slot state, the new counts, and the identity of the destroyed buffer, if
any. -/
def DrmCrtc.setNext (s : DrmCrtcState) (rc : Nat → Nat) (buffer : Option Nat) :
    DrmCrtcState × (Nat → Nat) × Option Nat :=
  let rc1 : Nat → Nat := fun i => if some i = buffer then rc i + 1 else rc i
  match s.nextBuffer with
  | none => ({ s with nextBuffer := buffer }, rc1, none)
  | some old =>
    let rc2 : Nat → Nat := fun i => if i = old then rc1 i - 1 else rc1 i
    ({ s with nextBuffer := buffer }, rc2,
     if rc1 old = 1 then some old else none)

/-- Whether an external call is one of the three framebuffer-registration
ioctls attempted by `DrmGbmBuffer::initialize`. -/
def isRegistrationCall : ExtCall → Bool
  | ExtCall.addFB2WithModifiers _ => true
  | ExtCall.addFB2 => true
  | ExtCall.addFB _ _ => true
  | _ => false

/-- A concrete native buffer handle used in concrete instances:
a single-plane 64x64 XRGB8888 buffer with linear layout whose plane-0
handle query succeeds. -/
def sampleBo : GbmBo :=
  { width := 64, height := 64, format := 875713112, modifier := 0,
    stride := 256, handle := 7, planeCount := 1, planeHandleValid0 := true }

/-- A concrete GPU with modifier-aware registration support. -/
def modGpu : Gpu :=
  { fd := 3, devNode := "card0", addFB2ModifiersSupported := true }

/-- A concrete GPU without modifier-aware registration support. -/
def legacyGpu : Gpu :=
  { fd := 4, devNode := "card1", addFB2ModifiersSupported := false }

/-- Registration outcomes where the modifier-aware ioctl fails while both
legacy ioctls would succeed. -/
def modFailOracle : FbOracle :=
  { addFB2WithModifiersResult := none, addFB2Result := some 5, addFBResult := some 6 }

/-- Registration outcomes where the modifier-aware ioctl would succeed and
both legacy ioctls fail. -/
def legacyFailOracle : FbOracle :=
  { addFB2WithModifiersResult := some 5, addFB2Result := none, addFBResult := none }

/-- A `GbmBufferState` as produced by a failed client-buffer import:
no native handle, no mapping, but still holding the client reference. -/
def emptyBufState : GbmBufferState :=
  { surfaceBacked := false, bo := none, clientBufferHeld := true,
    stride := 0, mappedData := none, hasMapping := false }

/-- Registration outcomes where every ioctl fails. -/
def allFailOracle : FbOracle :=
  { addFB2WithModifiersResult := none, addFB2Result := none, addFBResult := none }

/-- A concrete CRTC slot state with a current buffer and a pending next
buffer. -/
def samplePendingCrtc : DrmCrtcState :=
  { currentBuffer := some 7, nextBuffer := some 1 }

/-- Concrete reference counts: every buffer identity has exactly one
holder. -/
def singleRefCounts : Nat → Nat := fun _ => 1

/-! Theorems: one per claim, with concrete witnesses and counterexamples. -/

/-- The import-path branch condition, characterised on a non-empty plane
list. -/
theorem usesModifierImportPath_iff (p0 : Plane) (rest : List Plane) :
    usesModifierImportPath (p0 :: rest) = true ↔
      (1 < (p0 :: rest).length ∨ p0.modifier ≠ DRM_FORMAT_MOD_INVALID ∨
        p0.offset ≠ 0) := by
  simp only [usesModifierImportPath, List.head?, Bool.or_eq_true, bne_iff_ne,
    ne_eq, decide_eq_true_eq, List.length_cons]
  omega

/-- C2: for every Buffer Object constructed by external import, the
multi-plane-with-modifier import path is selected exactly when the plane
count is greater than 1, or the first plane's modifier is valid, or the
first plane's offset is non-zero; in every other case the simple
single-plane import path is selected; both paths request scanout usage,
and on success the stride is read back from the imported handle. -/
theorem c2_import_path_selection (cb : ClientBufferDesc) (o : ImportOracle)
    (p0 : Plane) (rest : List Plane) (hp : cb.planes = p0 :: rest) :
    (ExtCall.gbmImport true GBM_BO_USE_SCANOUT ∈ (GbmBuffer.importFromClient cb o).2 ↔
      (1 < cb.planes.length ∨ p0.modifier ≠ DRM_FORMAT_MOD_INVALID ∨
        p0.offset ≠ 0)) ∧
    (ExtCall.gbmImport false GBM_BO_USE_SCANOUT ∈ (GbmBuffer.importFromClient cb o).2 ↔
      ¬(1 < cb.planes.length ∨ p0.modifier ≠ DRM_FORMAT_MOD_INVALID ∨
        p0.offset ≠ 0)) ∧
    (∀ b, o.result = some b → (GbmBuffer.importFromClient cb o).1.stride = b.stride) := by
  have hchar := usesModifierImportPath_iff p0 rest
  rw [← hp] at hchar
  have hmem : ∀ mp : Bool,
      (ExtCall.gbmImport mp GBM_BO_USE_SCANOUT ∈ (GbmBuffer.importFromClient cb o).2 ↔
        usesModifierImportPath cb.planes = mp) := by
    intro mp
    cases hres : o.result with
    | some b =>
      cases hpath : usesModifierImportPath cb.planes <;>
        cases mp <;> simp [GbmBuffer.importFromClient, hres, hpath]
    | none =>
      cases hpath : usesModifierImportPath cb.planes <;>
        cases mp <;>
        (simp only [GbmBuffer.importFromClient, hres, hpath]
         split <;> simp)
  refine ⟨?_, ?_, ?_⟩
  · rw [hmem true, hchar]
  · rw [hmem false, ← hchar]
    cases hpath : usesModifierImportPath cb.planes <;> simp [hpath]
  · intro b hb
    simp [GbmBuffer.importFromClient, hb]

/-- Concrete instance of the C2 theorem: a single plane with invalid
modifier and zero offset takes the single-plane path. -/
theorem c2_import_path_selection_witness :
    (({ format := 875713112, width := 64, height := 64,
        planes := [{ fd := 5, offset := 0, stride := 256,
                     modifier := DRM_FORMAT_MOD_INVALID }] } : ClientBufferDesc).planes =
      ({ fd := 5, offset := 0, stride := 256,
         modifier := DRM_FORMAT_MOD_INVALID } : Plane) :: []) ∧
    (ExtCall.gbmImport true GBM_BO_USE_SCANOUT ∈
        (GbmBuffer.importFromClient
          { format := 875713112, width := 64, height := 64,
            planes := [{ fd := 5, offset := 0, stride := 256,
                         modifier := DRM_FORMAT_MOD_INVALID }] }
          { result := none, errnoVal := EINVAL }).2 ↔
      (1 < ({ format := 875713112, width := 64, height := 64,
              planes := [{ fd := 5, offset := 0, stride := 256,
                           modifier := DRM_FORMAT_MOD_INVALID }] } : ClientBufferDesc).planes.length ∨
        ({ fd := 5, offset := 0, stride := 256,
           modifier := DRM_FORMAT_MOD_INVALID } : Plane).modifier ≠ DRM_FORMAT_MOD_INVALID ∨
        ({ fd := 5, offset := 0, stride := 256,
           modifier := DRM_FORMAT_MOD_INVALID } : Plane).offset ≠ 0)) ∧
    (ExtCall.gbmImport false GBM_BO_USE_SCANOUT ∈
        (GbmBuffer.importFromClient
          { format := 875713112, width := 64, height := 64,
            planes := [{ fd := 5, offset := 0, stride := 256,
                         modifier := DRM_FORMAT_MOD_INVALID }] }
          { result := none, errnoVal := EINVAL }).2 ↔
      ¬(1 < ({ format := 875713112, width := 64, height := 64,
               planes := [{ fd := 5, offset := 0, stride := 256,
                            modifier := DRM_FORMAT_MOD_INVALID }] } : ClientBufferDesc).planes.length ∨
        ({ fd := 5, offset := 0, stride := 256,
           modifier := DRM_FORMAT_MOD_INVALID } : Plane).modifier ≠ DRM_FORMAT_MOD_INVALID ∨
        ({ fd := 5, offset := 0, stride := 256,
           modifier := DRM_FORMAT_MOD_INVALID } : Plane).offset ≠ 0)) ∧
    (∀ b, ({ result := none, errnoVal := EINVAL } : ImportOracle).result = some b →
      (GbmBuffer.importFromClient
        { format := 875713112, width := 64, height := 64,
          planes := [{ fd := 5, offset := 0, stride := 256,
                       modifier := DRM_FORMAT_MOD_INVALID }] }
        { result := none, errnoVal := EINVAL }).1.stride = b.stride) :=
  ⟨rfl, c2_import_path_selection _ _ _ [] rfl⟩

/-- C3: for every external-import construction that fails, a warning is
logged iff the failure reason is not EINVAL; the constructed object is
valid but empty (it still holds the client-buffer reference and has no
native handle), and construction is total. -/
theorem c3_import_failure_warning (cb : ClientBufferDesc) (o : ImportOracle)
    (hfail : o.result = none) :
    (ExtCall.warnImportFailed ∈ (GbmBuffer.importFromClient cb o).2 ↔
      o.errnoVal ≠ EINVAL) ∧
    (GbmBuffer.importFromClient cb o).1.bo = none ∧
    (GbmBuffer.importFromClient cb o).1.clientBufferHeld = true := by
  refine ⟨?_, ?_, ?_⟩
  · simp only [GbmBuffer.importFromClient, hfail]
    split <;> simp_all
  · simp [GbmBuffer.importFromClient, hfail]
  · simp [GbmBuffer.importFromClient, hfail]

/-- Concrete instance of the C3 theorem: import failing with EACCES (13)
logs the warning; import failing with EINVAL would not. -/
theorem c3_import_failure_warning_witness :
    (({ result := none, errnoVal := 13 } : ImportOracle).result = none) ∧
    ((ExtCall.warnImportFailed ∈
        (GbmBuffer.importFromClient
          { format := 875713112, width := 64, height := 64, planes := [] }
          { result := none, errnoVal := 13 }).2 ↔
      ({ result := none, errnoVal := 13 } : ImportOracle).errnoVal ≠ EINVAL) ∧
    (GbmBuffer.importFromClient
      { format := 875713112, width := 64, height := 64, planes := [] }
      { result := none, errnoVal := 13 }).1.bo = none ∧
    (GbmBuffer.importFromClient
      { format := 875713112, width := 64, height := 64, planes := [] }
      { result := none, errnoVal := 13 }).1.clientBufferHeld = true) :=
  ⟨rfl, c3_import_failure_warning _ _ rfl⟩

/-- C5: needsModeChange returns true unconditionally when the other buffer
is not the same concrete kind; when both are the same concrete kind it
returns true exactly when one of the two has a valid native buffer and
the other does not. -/
theorem c5_needs_mode_change (aHasBo bHasBo : Bool) :
    DrmGbmBuffer.needsModeChange aHasBo DrmBufferView.otherKind = true ∧
    (DrmGbmBuffer.needsModeChange aHasBo (DrmBufferView.gbm bHasBo) = true ↔
      aHasBo ≠ bHasBo) := by
  cases aHasBo <;> cases bHasBo <;> decide

/-- C1 counterexample: on a device with modifier-aware support and a buffer
with valid plane-0 modifier, the modifier-aware registration call is made
and fails, yet the plain multi-plane call is never attempted and the
framebuffer identifier stays 0 — contradicting the claimed strict
three-tier fallback, under which the plain multi-plane call (which here
would succeed) is attempted next. -/
theorem c1_no_fallback_after_modifier_failure :
    (ExtCall.addFB2WithModifiers DRM_MODE_FB_MODIFIERS ∈
      (DrmGbmBuffer.initFramebuffer modGpu 875713112 0 true (some sampleBo) modFailOracle).calls) ∧
    modFailOracle.addFB2WithModifiersResult = none ∧
    modFailOracle.addFB2Result = some 5 ∧
    (ExtCall.addFB2 ∉
      (DrmGbmBuffer.initFramebuffer modGpu 875713112 0 true (some sampleBo) modFailOracle).calls) ∧
    (¬∃ d bpp, ExtCall.addFB d bpp ∈
      (DrmGbmBuffer.initFramebuffer modGpu 875713112 0 true (some sampleBo) modFailOracle).calls) ∧
    (DrmGbmBuffer.initFramebuffer modGpu 875713112 0 true (some sampleBo) modFailOracle).bufferId = 0 := by
  refine ⟨by decide, rfl, rfl, by decide, ?_, by decide⟩
  rintro ⟨d, bpp, hmem⟩
  simp [DrmGbmBuffer.initFramebuffer, modGpu, sampleBo, modFailOracle, planeModifier0,
    DRM_FORMAT_MOD_INVALID] at hmem

/-- C1 (amended): when plane 0's modifier is valid and the device supports
modifier-aware registration, only the modifier-aware call is attempted —
on its failure no further registration call is made and the framebuffer
identifier stays 0; otherwise the plain multi-plane call is attempted
first and the single-plane legacy call (depth 24, bpp 32) is attempted
exactly when the former fails; success at any attempted call stops the
sequence, the identifier stays 0 when every attempted call fails, and the
object remains constructed in every case. -/
theorem c1_registration_tier_structure (gpu : Gpu) (format modifier : Nat)
    (sb : Bool) (b : GbmBo) (o : FbOracle)
    (hmod : ∀ id, o.addFB2WithModifiersResult = some id → id ≠ 0)
    (hleg : ∀ id, o.addFBResult = some id → id ≠ 0) :
    (((planeModifier0 b modifier != DRM_FORMAT_MOD_INVALID) &&
        gpu.addFB2ModifiersSupported) = true →
      ((DrmGbmBuffer.initFramebuffer gpu format modifier sb (some b) o).calls.filter
          isRegistrationCall = [ExtCall.addFB2WithModifiers DRM_MODE_FB_MODIFIERS]) ∧
      ((DrmGbmBuffer.initFramebuffer gpu format modifier sb (some b) o).bufferId ≠ 0 ↔
        o.addFB2WithModifiersResult.isSome = true)) ∧
    (((planeModifier0 b modifier != DRM_FORMAT_MOD_INVALID) &&
        gpu.addFB2ModifiersSupported) = false →
      (∀ id, o.addFB2Result = some id →
        ((DrmGbmBuffer.initFramebuffer gpu format modifier sb (some b) o).calls.filter
            isRegistrationCall = [ExtCall.addFB2]) ∧
        (DrmGbmBuffer.initFramebuffer gpu format modifier sb (some b) o).bufferId = id) ∧
      (o.addFB2Result = none →
        ((DrmGbmBuffer.initFramebuffer gpu format modifier sb (some b) o).calls.filter
            isRegistrationCall = [ExtCall.addFB2, ExtCall.addFB 24 32]) ∧
        ((DrmGbmBuffer.initFramebuffer gpu format modifier sb (some b) o).bufferId ≠ 0 ↔
          o.addFBResult.isSome = true))) := by
  constructor
  · intro hcond
    cases hm : o.addFB2WithModifiersResult with
    | some id =>
      simp [DrmGbmBuffer.initFramebuffer, hcond, hm, isRegistrationCall, hmod id hm]
    | none =>
      cases sb <;> simp [DrmGbmBuffer.initFramebuffer, hcond, hm, isRegistrationCall]
  · intro hcond
    constructor
    · intro id h2eq
      simp [DrmGbmBuffer.initFramebuffer, hcond, h2eq, isRegistrationCall]
    · intro h2eq
      cases hf : o.addFBResult with
      | some id =>
        simp [DrmGbmBuffer.initFramebuffer, hcond, h2eq, hf, isRegistrationCall, hleg id hf]
      | none =>
        cases sb <;> simp [DrmGbmBuffer.initFramebuffer, hcond, h2eq, hf, isRegistrationCall]

/-- Concrete instance of the amended C1 theorem: a device without
modifier-aware support, where the plain multi-plane call fails and the
single-plane legacy call also fails. -/
theorem c1_registration_tier_structure_witness :
    (∀ id, legacyFailOracle.addFB2WithModifiersResult = some id → id ≠ 0) ∧
    (∀ id, legacyFailOracle.addFBResult = some id → id ≠ 0) ∧
    ((((planeModifier0 sampleBo 0 != DRM_FORMAT_MOD_INVALID) &&
        legacyGpu.addFB2ModifiersSupported) = true →
      ((DrmGbmBuffer.initFramebuffer legacyGpu 875713112 0 false (some sampleBo)
          legacyFailOracle).calls.filter isRegistrationCall =
        [ExtCall.addFB2WithModifiers DRM_MODE_FB_MODIFIERS]) ∧
      ((DrmGbmBuffer.initFramebuffer legacyGpu 875713112 0 false (some sampleBo)
          legacyFailOracle).bufferId ≠ 0 ↔
        legacyFailOracle.addFB2WithModifiersResult.isSome = true)) ∧
    (((planeModifier0 sampleBo 0 != DRM_FORMAT_MOD_INVALID) &&
        legacyGpu.addFB2ModifiersSupported) = false →
      (∀ id, legacyFailOracle.addFB2Result = some id →
        ((DrmGbmBuffer.initFramebuffer legacyGpu 875713112 0 false (some sampleBo)
            legacyFailOracle).calls.filter isRegistrationCall = [ExtCall.addFB2]) ∧
        (DrmGbmBuffer.initFramebuffer legacyGpu 875713112 0 false (some sampleBo)
          legacyFailOracle).bufferId = id) ∧
      (legacyFailOracle.addFB2Result = none →
        ((DrmGbmBuffer.initFramebuffer legacyGpu 875713112 0 false (some sampleBo)
            legacyFailOracle).calls.filter isRegistrationCall =
          [ExtCall.addFB2, ExtCall.addFB 24 32]) ∧
        ((DrmGbmBuffer.initFramebuffer legacyGpu 875713112 0 false (some sampleBo)
            legacyFailOracle).bufferId ≠ 0 ↔
          legacyFailOracle.addFBResult.isSome = true)))) :=
  ⟨fun id h => (by simp [legacyFailOracle] at h; omega),
   fun id h => (by simp [legacyFailOracle] at h),
   c1_registration_tier_structure legacyGpu 875713112 0 false sampleBo legacyFailOracle
     (fun id h => (by simp [legacyFailOracle] at h; omega))
     (fun id h => (by simp [legacyFailOracle] at h))⟩

/-- C4 counterexample: a surface-backed buffer that is mapped and then
released has a null native handle, yet a further `map()` call returns
true (the stale `m_data` short-circuit), contradicting the claim that
`map()` on a buffer with null native handle always returns false.  (It
still performs no underlying mapping call.) -/
theorem c4_map_after_release_returns_true :
    ((GbmBuffer.releaseBuffer
        (GbmBuffer.map (GbmBuffer.fromSurface sampleBo)
          { result := some (4096, 256) }).2.1).1.bo = none) ∧
    ((GbmBuffer.map
        (GbmBuffer.releaseBuffer
          (GbmBuffer.map (GbmBuffer.fromSurface sampleBo)
            { result := some (4096, 256) }).2.1).1
        { result := none }).1 = true) ∧
    ((GbmBuffer.map
        (GbmBuffer.releaseBuffer
          (GbmBuffer.map (GbmBuffer.fromSurface sampleBo)
            { result := some (4096, 256) }).2.1).1
        { result := none }).2.2 = []) := by
  decide

/-- C4 (amended): on a Buffer Object with a null native handle, `map()`
performs no underlying mapping call and returns true exactly when a
previously recorded mapped-data pointer is still present (which release
does not clear) — in particular it returns false whenever no mapping was
recorded; and `createTexture()` always returns a null result with no
calls.  No operation is undefined: both are total on such states. -/
theorem c4_empty_buffer_operations (s : GbmBufferState) (h : s.bo = none)
    (o : MapOracle) (imageResult : Option Nat) :
    ((GbmBuffer.map s o).2.2 = []) ∧
    ((GbmBuffer.map s o).1 = s.mappedData.isSome) ∧
    (GbmBuffer.createTexture s imageResult = (none, [])) := by
  refine ⟨?_, ?_, ?_⟩
  · by_cases hd : s.mappedData.isSome <;> simp [GbmBuffer.map, hd, h]
  · by_cases hd : s.mappedData.isSome <;> simp [GbmBuffer.map, hd, h]
  · simp [GbmBuffer.createTexture, h]

/-- Concrete instance of the amended C4 theorem: a buffer left empty by a
failed import fails `map()` and `createTexture()` with no calls. -/
theorem c4_empty_buffer_operations_witness :
    (emptyBufState.bo = none) ∧
    (((GbmBuffer.map emptyBufState { result := some (4096, 256) }).2.2 = []) ∧
     ((GbmBuffer.map emptyBufState { result := some (4096, 256) }).1 =
       emptyBufState.mappedData.isSome) ∧
     (GbmBuffer.createTexture emptyBufState (some 3) = (none, []))) :=
  ⟨rfl, c4_empty_buffer_operations emptyBufState rfl { result := some (4096, 256) } (some 3)⟩

/-- Embedded `releaseBuffer` only performs unref/unmap/pool-return/destroy calls. -/
theorem releaseBuffer_calls_subset (s : GbmBufferState) :
    ∀ c ∈ (GbmBuffer.releaseBuffer s).2,
      c = ExtCall.clientUnref ∨ c = ExtCall.gbmUnmap ∨
      c = ExtCall.surfaceRelease ∨ c = ExtCall.gbmDestroy := by
  obtain ⟨sf, bo, ch, st, md, hmp⟩ := s
  cases sf <;> cases ch <;> cases hmp <;> cases bo <;>
    simp [GbmBuffer.releaseBuffer]

/-- C6: destroying a Scanout Buffer invokes the kernel deregistration call
exactly once when a non-zero framebuffer identifier was obtained and zero
times otherwise; a deregistration failure is reported as critical, and the
memory-release calls follow in the trace regardless of that outcome. -/
theorem c6_destructor_deregistration (bufferId : Nat) (gpu : Gpu)
    (rmSucceeds : Bool) (s : GbmBufferState) :
    ((DrmGbmBuffer.destruct bufferId gpu rmSucceeds s).count (ExtCall.rmFB bufferId) =
      if bufferId ≠ 0 then 1 else 0) ∧
    (∀ id, ExtCall.rmFB id ∈ DrmGbmBuffer.destruct bufferId gpu rmSucceeds s →
      id = bufferId ∧ bufferId ≠ 0) ∧
    ((ExtCall.criticalRmFBLog gpu.devNode ∈ DrmGbmBuffer.destruct bufferId gpu rmSucceeds s) ↔
      (bufferId ≠ 0 ∧ rmSucceeds = false)) ∧
    (∃ pre, DrmGbmBuffer.destruct bufferId gpu rmSucceeds s =
      pre ++ (GbmBuffer.releaseBuffer s).2) := by
  have hsub := releaseBuffer_calls_subset s
  have hnoRm : ∀ id, ExtCall.rmFB id ∉ (GbmBuffer.releaseBuffer s).2 := by
    intro id hm
    rcases hsub _ hm with h | h | h | h <;> simp at h
  have hnoCrit : ExtCall.criticalRmFBLog gpu.devNode ∉ (GbmBuffer.releaseBuffer s).2 := by
    intro hm
    rcases hsub _ hm with h | h | h | h <;> simp at h
  refine ⟨?_, ?_, ?_, ⟨_, rfl⟩⟩
  · rw [DrmGbmBuffer.destruct, List.count_append,
      List.count_eq_zero.mpr (hnoRm bufferId), Nat.add_zero]
    by_cases hb : bufferId = 0
    · simp [hb]
    · cases rmSucceeds <;> simp [hb, List.count_cons]
  · intro id hm
    rw [DrmGbmBuffer.destruct, List.mem_append] at hm
    rcases hm with hm | hm
    · by_cases hb : bufferId = 0
      · simp [hb] at hm
      · cases rmSucceeds <;> simp [hb] at hm <;> simp [hm, hb]
    · exact absurd hm (hnoRm id)
  · rw [DrmGbmBuffer.destruct, List.mem_append]
    by_cases hb : bufferId = 0
    · cases rmSucceeds <;> simp [hb, hnoCrit]
    · cases rmSucceeds <;> simp [hb, hnoCrit]

/-- Concrete instance of the C6 theorem: a buffer with framebuffer id 5
whose deregistration fails; the critical log appears and release still
runs. -/
theorem c6_destructor_deregistration_witness :
    ((DrmGbmBuffer.destruct 5 modGpu false emptyBufState).count (ExtCall.rmFB 5) =
      if (5 : Nat) ≠ 0 then 1 else 0) ∧
    (∀ id, ExtCall.rmFB id ∈ DrmGbmBuffer.destruct 5 modGpu false emptyBufState →
      id = 5 ∧ (5 : Nat) ≠ 0) ∧
    ((ExtCall.criticalRmFBLog modGpu.devNode ∈
        DrmGbmBuffer.destruct 5 modGpu false emptyBufState) ↔
      ((5 : Nat) ≠ 0 ∧ false = false)) ∧
    (∃ pre, DrmGbmBuffer.destruct 5 modGpu false emptyBufState =
      pre ++ (GbmBuffer.releaseBuffer emptyBufState).2) :=
  c6_destructor_deregistration 5 modGpu false emptyBufState

/-- C7: exactly one client-buffer reference is acquired at import and
exactly one is released at destruction, also when the kernel import itself
fails; a second release performs no further calls at all. -/
theorem c7_client_reference_symmetry (cb : ClientBufferDesc) (o : ImportOracle) :
    ((GbmBuffer.importFromClient cb o).2.count ExtCall.clientRef = 1) ∧
    ((GbmBuffer.importFromClient cb o).2.count ExtCall.clientUnref = 0) ∧
    ((GbmBuffer.releaseBuffer (GbmBuffer.importFromClient cb o).1).2.count
      ExtCall.clientUnref = 1) ∧
    ((GbmBuffer.releaseBuffer (GbmBuffer.importFromClient cb o).1).2.count
      ExtCall.clientRef = 0) ∧
    ((GbmBuffer.releaseBuffer
        (GbmBuffer.releaseBuffer (GbmBuffer.importFromClient cb o).1).1).2 = []) := by
  cases hres : o.result with
  | some b =>
    simp [GbmBuffer.importFromClient, GbmBuffer.releaseBuffer, hres, List.count_cons]
  | none =>
    by_cases he : o.errnoVal ≠ EINVAL <;>
      simp [GbmBuffer.importFromClient, GbmBuffer.releaseBuffer, hres, he, List.count_cons]

/-- C8 counterexample: an imported (non-surface-backed) buffer on which
every attempted registration call fails produces no diagnostic at all —
the trace is exactly AddFB2, AddFB, set-user-data — contradicting the
claim that exhaustion is always reported. -/
theorem c8_no_diagnostic_for_imported_buffer :
    (DrmGbmBuffer.initFramebuffer legacyGpu 875713112 0 false (some sampleBo)
        allFailOracle).bufferId = 0 ∧
    (DrmGbmBuffer.initFramebuffer legacyGpu 875713112 0 false (some sampleBo)
        allFailOracle).calls =
      [ExtCall.addFB2, ExtCall.addFB 24 32, ExtCall.setUserData] := by
  decide

/-- C8 (amended): when every attempted registration call fails, a
diagnostic naming the device node, the pixel format and plane-0's modifier
is reported iff the buffer is surface-backed — client-imported buffers
fail silently — and in either case the buffer remains constructed and
usable: its native handle is still tagged with user data while the
framebuffer identifier stays 0. -/
theorem c8_exhaustion_diagnostic (gpu : Gpu) (format modifier : Nat) (sb : Bool)
    (b : GbmBo) (o : FbOracle)
    (hall : o.addFB2WithModifiersResult = none ∧ o.addFB2Result = none ∧
      o.addFBResult = none) :
    (DrmGbmBuffer.initFramebuffer gpu format modifier sb (some b) o).bufferId = 0 ∧
    (DrmGbmBuffer.initFramebuffer gpu format modifier sb (some b) o).userDataSet = true ∧
    ((ExtCall.criticalAddFBModLog gpu.devNode format (planeModifier0 b modifier) ∈
        (DrmGbmBuffer.initFramebuffer gpu format modifier sb (some b) o).calls ∨
      ExtCall.criticalAddFBLog gpu.devNode format (planeModifier0 b modifier) ∈
        (DrmGbmBuffer.initFramebuffer gpu format modifier sb (some b) o).calls) ↔
      sb = true) := by
  obtain ⟨h1, h2, h3⟩ := hall
  cases hcond : ((planeModifier0 b modifier != DRM_FORMAT_MOD_INVALID) &&
      gpu.addFB2ModifiersSupported) with
  | true => cases sb <;> simp [DrmGbmBuffer.initFramebuffer, hcond, h1, h2, h3]
  | false => cases sb <;> simp [DrmGbmBuffer.initFramebuffer, hcond, h1, h2, h3]

/-- Concrete instance of the amended C8 theorem: a surface-backed buffer on
a device without modifier support, with every registration call failing. -/
theorem c8_exhaustion_diagnostic_witness :
    (allFailOracle.addFB2WithModifiersResult = none ∧
      allFailOracle.addFB2Result = none ∧ allFailOracle.addFBResult = none) ∧
    ((DrmGbmBuffer.initFramebuffer legacyGpu 875713112 0 true (some sampleBo)
        allFailOracle).bufferId = 0 ∧
    (DrmGbmBuffer.initFramebuffer legacyGpu 875713112 0 true (some sampleBo)
        allFailOracle).userDataSet = true ∧
    ((ExtCall.criticalAddFBModLog legacyGpu.devNode 875713112
          (planeModifier0 sampleBo 0) ∈
        (DrmGbmBuffer.initFramebuffer legacyGpu 875713112 0 true (some sampleBo)
          allFailOracle).calls ∨
      ExtCall.criticalAddFBLog legacyGpu.devNode 875713112
          (planeModifier0 sampleBo 0) ∈
        (DrmGbmBuffer.initFramebuffer legacyGpu 875713112 0 true (some sampleBo)
          allFailOracle).calls) ↔ true = true)) :=
  ⟨⟨rfl, rfl, rfl⟩,
   c8_exhaustion_diagnostic legacyGpu 875713112 0 true sampleBo allFailOracle
     ⟨rfl, rfl, rfl⟩⟩

/-- C9: with a pending next buffer, setNext with a different new buffer
replaces the pending reference — the old one's reference count drops by
one and its destruction chain runs exactly when no other reference
remained — while the current buffer reference is unchanged. -/
theorem c9_set_next_replaces_pending (s : DrmCrtcState) (rc : Nat → Nat)
    (old newBuf : Nat) (hpend : s.nextBuffer = some old) (hne : old ≠ newBuf) :
    ((DrmCrtc.setNext s rc (some newBuf)).1.nextBuffer = some newBuf) ∧
    ((DrmCrtc.setNext s rc (some newBuf)).1.currentBuffer = s.currentBuffer) ∧
    ((DrmCrtc.setNext s rc (some newBuf)).2.1 old = rc old - 1) ∧
    ((DrmCrtc.setNext s rc (some newBuf)).2.1 newBuf = rc newBuf + 1) ∧
    ((DrmCrtc.setNext s rc (some newBuf)).2.2 = some old ↔ rc old = 1) := by
  have hne' : newBuf ≠ old := Ne.symm hne
  refine ⟨?_, ?_, ?_, ?_, ?_⟩
  · simp [DrmCrtc.setNext, hpend]
  · simp [DrmCrtc.setNext, hpend]
  · simp [DrmCrtc.setNext, hpend, hne]
  · simp [DrmCrtc.setNext, hpend, hne, hne']
  · simp only [DrmCrtc.setNext, hpend]
    have h1 : ¬(some old = some newBuf) := by simp [hne]
    simp only [if_neg h1]
    constructor
    · intro h
      by_contra hrc
      rw [if_neg hrc] at h
      exact Option.noConfusion h
    · intro h
      rw [if_pos h]

/-- Concrete instance of the C9 theorem: a slot showing buffer 7 with
buffer 1 pending and solely referenced; setNext with buffer 2 destroys
buffer 1 and leaves buffer 7 current. -/
theorem c9_set_next_replaces_pending_witness :
    (samplePendingCrtc.nextBuffer = some 1) ∧ ((1 : Nat) ≠ 2) ∧
    (((DrmCrtc.setNext samplePendingCrtc singleRefCounts (some 2)).1.nextBuffer = some 2) ∧
    ((DrmCrtc.setNext samplePendingCrtc singleRefCounts (some 2)).1.currentBuffer =
      samplePendingCrtc.currentBuffer) ∧
    ((DrmCrtc.setNext samplePendingCrtc singleRefCounts (some 2)).2.1 1 =
      singleRefCounts 1 - 1) ∧
    ((DrmCrtc.setNext samplePendingCrtc singleRefCounts (some 2)).2.1 2 =
      singleRefCounts 2 + 1) ∧
    ((DrmCrtc.setNext samplePendingCrtc singleRefCounts (some 2)).2.2 = some 1 ↔
      singleRefCounts 1 = 1)) :=
  ⟨rfl, by decide,
   c9_set_next_replaces_pending samplePendingCrtc singleRefCounts 1 2 rfl (by decide)⟩

/-- C10: the native buffer is tagged with user data exactly when a native
handle exists — even when every registration call failed — the tagging
call is the last call of initialization, and with no native handle no
call at all (in particular no registration call) is made. -/
theorem c10_user_data_tagging (gpu : Gpu) (format modifier : Nat) (sb : Bool)
    (ob : Option GbmBo) (o : FbOracle) :
    ((DrmGbmBuffer.initFramebuffer gpu format modifier sb ob o).userDataSet = ob.isSome) ∧
    ((DrmGbmBuffer.initFramebuffer gpu format modifier sb ob o).calls.getLast? =
      if ob.isSome then some ExtCall.setUserData else none) ∧
    (ob = none → (DrmGbmBuffer.initFramebuffer gpu format modifier sb ob o).calls = []) := by
  cases ob with
  | none => simp [DrmGbmBuffer.initFramebuffer]
  | some b =>
    cases hcond : ((planeModifier0 b modifier != DRM_FORMAT_MOD_INVALID) &&
        gpu.addFB2ModifiersSupported) <;>
      cases h1 : o.addFB2WithModifiersResult <;>
      cases h2 : o.addFB2Result <;>
      cases h3 : o.addFBResult <;>
      cases sb <;>
      simp [DrmGbmBuffer.initFramebuffer, hcond, h1, h2, h3, List.getLast?]

/-- Concrete instance of the C10 theorem: a buffer with a native handle on
which every registration call fails is still tagged, as the last call. -/
theorem c10_user_data_tagging_witness :
    ((DrmGbmBuffer.initFramebuffer legacyGpu 875713112 0 false (some sampleBo)
        allFailOracle).userDataSet = (some sampleBo).isSome) ∧
    ((DrmGbmBuffer.initFramebuffer legacyGpu 875713112 0 false (some sampleBo)
        allFailOracle).calls.getLast? =
      if (some sampleBo).isSome then some ExtCall.setUserData else none) ∧
    (some sampleBo = none →
      (DrmGbmBuffer.initFramebuffer legacyGpu 875713112 0 false (some sampleBo)
        allFailOracle).calls = []) :=
  c10_user_data_tagging legacyGpu 875713112 0 false (some sampleBo) allFailOracle

end KWin
